import Mathlib

/-!
Verification of the `demo-zama` voting contracts (`PrivateVoting` and
`VotingFactory` from `contracts/PrivateVoting.sol`) against their
natural-language specification.

The Solidity contracts are shallowly embedded as Lean functions over an
explicit storage record.  Machine integers are modelled as `Nat`:
`uint32` / `euint32` values are reduced modulo `2 ^ 32` at every point the
source casts or performs TFHE arithmetic (TFHE addition wraps), and the
Solidity 0.8 checked increment of the `uint256` counter `totalVoters`
reverts at `2 ^ 256`.  FHE ciphertexts are represented by their plaintext
values: the homomorphic operations of the external TFHE library compute
exactly the corresponding plaintext operations, and `vote` receives the
plaintext `v` of the submitted ciphertext (the external proof check is
outside this repository).  Each external function of the contract becomes
a Lean function `State → args → Except String State`; a `require` failure
(or an OpenZeppelin `Ownable` / `GatewayCaller` modifier failure) is an
`Except.error` carrying the revert message.  The EVM transaction
semantics — a reverted call leaves storage untouched — is modelled by the
`step` functions, which keep the pre-state on `Except.error`.
-/

namespace DemoZama

/-- Ethereum addresses, abstracted as naturals; `0` is `address(0)`. -/
abbrev Addr := Nat

/-- Modulus of `uint32` / `euint32` values. -/
def U32MOD : Nat := 2 ^ 32

/-- Modulus of `uint256` values (Solidity 0.8 checked arithmetic reverts
rather than wrap at this bound). -/
def U256MOD : Nat := 2 ^ 256

/-- `PrivateVoting.VotingState` (source lines 19–24). -/
inductive VotingState
  | NotStarted
  | Active
  | Ended
  | ResultsRevealed
deriving DecidableEq, Repr

/-- Position of a `VotingState` in the declared enum order
`NotStarted < Active < Ended < ResultsRevealed`. -/
def VotingState.rank : VotingState → Nat
  | .NotStarted => 0
  | .Active => 1
  | .Ended => 2
  | .ResultsRevealed => 3

/-- `PrivateVoting.VotingInfo` (source lines 27–36). -/
structure VotingInfo where
  title : String
  description : String
  options : List String
  startTime : Nat
  endTime : Nat
  state : VotingState
  totalVoters : Nat
  resultsRequested : Bool

/-- The storage of one `PrivateVoting` contract instance, together with
its `Ownable` owner slot and the (immutable, externally configured)
gateway address checked by `GatewayCaller.onlyGateway`.  Solidity
mappings become total functions with the mapping's default value. -/
structure PVState where
  owner : Addr
  gatewayAddr : Addr
  encryptedVoteCounts : Nat → Nat
  hasVoted : Addr → Bool
  authorizedVoters : Addr → Bool
  votingInfo : VotingInfo
  decryptedResults : Nat → Nat
  resultsDecrypted : Bool

/-- The `PrivateVoting` constructor (source lines 101–133), run with
`msg.sender = sender` at `block.timestamp = nowT`.  On success the
deployer is the owner and the only authorized voter, all encrypted
counts are ciphertexts of `0`, and the state is `Active` when
`startTime` has already passed, `NotStarted` otherwise. -/
def mkPrivateVoting (sender gateway : Addr) (nowT : Nat)
    (title description : String) (options : List String)
    (startTime endTime : Nat) : Except String PVState :=
  if options.length < 2 then .error "At least 2 options required"
  else if options.length > 10 then .error "Maximum 10 options allowed"
  else if ¬ startTime < endTime then .error "Invalid time range"
  else if ¬ endTime > nowT then .error "End time must be in future"
  else .ok
    { owner := sender
      gatewayAddr := gateway
      encryptedVoteCounts := fun _ => 0
      hasVoted := fun _ => false
      authorizedVoters := fun a => if a = sender then true else false
      votingInfo :=
        { title := title
          description := description
          options := options
          startTime := startTime
          endTime := endTime
          state := if startTime ≤ nowT then .Active else .NotStarted
          totalVoters := 0
          resultsRequested := false }
      decryptedResults := fun _ => 0
      resultsDecrypted := false }

/-- `PrivateVoting.vote` (source lines 140–165) called with
`msg.sender = sender` at `block.timestamp = nowT`, where `v` is the
plaintext of the submitted encrypted ballot.  Modifier order follows the
source: `onlyDuringVoting` (time window, then state), then
`onlyAuthorizedVoter`, then `hasNotVoted`; the body checks
`v ≤ uint32(options.length - 1)`, adds the encrypted indicator
`(vote == i) ? 1 : 0` to every option's count (TFHE addition wraps
modulo `2 ^ 32`), marks the sender as having voted and performs the
checked increment of `totalVoters`. -/
def vote (s : PVState) (sender : Addr) (nowT : Nat) (v : Nat) :
    Except String PVState :=
  if ¬ (s.votingInfo.startTime ≤ nowT ∧ nowT ≤ s.votingInfo.endTime) then
    .error "Voting is not active"
  else if ¬ s.votingInfo.state = .Active then .error "Voting is not active"
  else if ¬ s.authorizedVoters sender = true then .error "Not authorized to vote"
  else if s.hasVoted sender = true then .error "Already voted"
  else if ¬ v % U32MOD ≤ (s.votingInfo.options.length - 1) % U32MOD then
    .error "Invalid vote option"
  else if ¬ s.votingInfo.totalVoters + 1 < U256MOD then
    .error "arithmetic overflow"
  else .ok
    { s with
      encryptedVoteCounts := fun i =>
        if i < s.votingInfo.options.length then
          (s.encryptedVoteCounts i +
            (if v % U32MOD = i % U32MOD then 1 else 0)) % U32MOD
        else s.encryptedVoteCounts i
      hasVoted := fun a => if a = sender then true else s.hasVoted a
      votingInfo := { s.votingInfo with
        totalVoters := s.votingInfo.totalVoters + 1 } }

/-- `PrivateVoting.authorizeVoter` (source lines 171–175). -/
def authorizeVoter (s : PVState) (sender voterAddr : Addr) :
    Except String PVState :=
  if ¬ sender = s.owner then .error "OwnableUnauthorizedAccount"
  else if voterAddr = 0 then .error "Invalid address"
  else .ok { s with
    authorizedVoters := fun a => if a = voterAddr then true else s.authorizedVoters a }

/-- Loop body of `PrivateVoting.authorizeVoters` (source lines 181–187):
each iteration checks the address and then writes the mapping, so a bad
address aborts mid-loop (the EVM then rolls the whole call back). -/
def authorizeVotersGo (s : PVState) : List Addr → Except String PVState
  | [] => .ok s
  | voterAddr :: rest =>
    if voterAddr = 0 then .error "Invalid address"
    else authorizeVotersGo
      { s with authorizedVoters := fun a =>
          if a = voterAddr then true else s.authorizedVoters a } rest

/-- `PrivateVoting.authorizeVoters` (source lines 181–187). -/
def authorizeVoters (s : PVState) (sender : Addr) (voters : List Addr) :
    Except String PVState :=
  if ¬ sender = s.owner then .error "OwnableUnauthorizedAccount"
  else authorizeVotersGo s voters

/-- `PrivateVoting.revokeVoter` (source lines 193–196). -/
def revokeVoter (s : PVState) (sender voterAddr : Addr) :
    Except String PVState :=
  if ¬ sender = s.owner then .error "OwnableUnauthorizedAccount"
  else .ok { s with
    authorizedVoters := fun a => if a = voterAddr then false else s.authorizedVoters a }

/-- `PrivateVoting.endVoting` (source lines 201–205). -/
def endVoting (s : PVState) (sender : Addr) : Except String PVState :=
  if ¬ sender = s.owner then .error "OwnableUnauthorizedAccount"
  else if ¬ s.votingInfo.state = .Active then .error "Voting not active"
  else .ok { s with votingInfo := { s.votingInfo with state := .Ended } }

/-- `PrivateVoting.startVoting` (source lines 210–214). -/
def startVoting (s : PVState) (sender : Addr) (nowT : Nat) :
    Except String PVState :=
  if ¬ sender = s.owner then .error "OwnableUnauthorizedAccount"
  else if ¬ s.votingInfo.state = .NotStarted then .error "Voting already started"
  else if ¬ nowT ≥ s.votingInfo.startTime then .error "Start time not reached"
  else .ok { s with votingInfo := { s.votingInfo with state := .Active } }

/-- `PrivateVoting.requestResults` (source lines 219–234): `onlyOwner`,
then `onlyAfterVoting` (`block.timestamp > endTime` or state `Ended`),
then the one-shot `resultsRequested` check; on success it sets
`resultsRequested` and forces the state to `Ended`.  The
`Gateway.requestDecryption` calls touch no contract storage. -/
def requestResults (s : PVState) (sender : Addr) (nowT : Nat) :
    Except String PVState :=
  if ¬ sender = s.owner then .error "OwnableUnauthorizedAccount"
  else if ¬ (nowT > s.votingInfo.endTime ∨ s.votingInfo.state = .Ended) then
    .error "Voting is still active"
  else if s.votingInfo.resultsRequested = true then
    .error "Results already requested"
  else .ok { s with votingInfo := { s.votingInfo with
    resultsRequested := true
    state := .Ended } }

/-- `PrivateVoting.callbackResults` (source lines 241–251): guarded only
by `onlyGateway`; copies `decryptedInput[i]` (cast to `uint32`) into
`decryptedResults[i]` for `i < min (input length) (options length)` and
unconditionally sets `resultsDecrypted` and state `ResultsRevealed`. -/
def callbackResults (s : PVState) (sender : Addr) (requestId : Nat)
    (decryptedInput : List Nat) : Except String PVState :=
  if ¬ sender = s.gatewayAddr then .error "GatewayCaller: caller is not the gateway"
  else .ok { s with
    decryptedResults := fun i =>
      if i < decryptedInput.length ∧ i < s.votingInfo.options.length then
        decryptedInput.getD i 0 % U32MOD
      else s.decryptedResults i
    resultsDecrypted := true
    votingInfo := { s.votingInfo with state := .ResultsRevealed } }

/-- OpenZeppelin `Ownable.transferOwnership` on a `PrivateVoting`
instance (used by the factory to hand the new contract to its creator). -/
def transferOwnership (s : PVState) (sender newOwner : Addr) :
    Except String PVState :=
  if ¬ sender = s.owner then .error "OwnableUnauthorizedAccount"
  else if newOwner = 0 then .error "OwnableInvalidOwner"
  else .ok { s with owner := newOwner }

/-- OpenZeppelin `Ownable.renounceOwnership` on a `PrivateVoting`
instance. -/
def renounceOwnership (s : PVState) (sender : Addr) : Except String PVState :=
  if ¬ sender = s.owner then .error "OwnableUnauthorizedAccount"
  else .ok { s with owner := 0 }

/-- One external, storage-mutating call to a `PrivateVoting` instance,
with its caller and, where the source reads `block.timestamp`, the block
time. -/
inductive PVCall
  | vote (sender : Addr) (nowT v : Nat)
  | authorizeVoter (sender voterAddr : Addr)
  | authorizeVoters (sender : Addr) (voters : List Addr)
  | revokeVoter (sender voterAddr : Addr)
  | endVoting (sender : Addr)
  | startVoting (sender : Addr) (nowT : Nat)
  | requestResults (sender : Addr) (nowT : Nat)
  | callbackResults (sender : Addr) (requestId : Nat) (decryptedInput : List Nat)
  | transferOwnership (sender newOwner : Addr)
  | renounceOwnership (sender : Addr)

/-- Dispatch a call to the corresponding contract function. -/
def exec (s : PVState) : PVCall → Except String PVState
  | .vote sender nowT v => vote s sender nowT v
  | .authorizeVoter sender voterAddr => authorizeVoter s sender voterAddr
  | .authorizeVoters sender voters => authorizeVoters s sender voters
  | .revokeVoter sender voterAddr => revokeVoter s sender voterAddr
  | .endVoting sender => endVoting s sender
  | .startVoting sender nowT => startVoting s sender nowT
  | .requestResults sender nowT => requestResults s sender nowT
  | .callbackResults sender requestId input => callbackResults s sender requestId input
  | .transferOwnership sender newOwner => transferOwnership s sender newOwner
  | .renounceOwnership sender => renounceOwnership s sender

/-- EVM transaction semantics of one call: a successful call installs the
new storage, a reverted call leaves the storage as it was and reports
the revert message. -/
def step (s : PVState) (c : PVCall) : PVState × Option String :=
  match exec s c with
  | .ok s' => (s', none)
  | .error e => (s, some e)

/-- States of a `PrivateVoting` instance reachable from its constructor
by any sequence of successful external calls. -/
inductive Reachable : PVState → Prop
  | init (sender gateway nowT : Addr) (title description : String)
      (options : List String) (startTime endTime : Nat) (s : PVState) :
      mkPrivateVoting sender gateway nowT title description options
        startTime endTime = .ok s → Reachable s
  | next (s : PVState) (c : PVCall) (s' : PVState) :
      Reachable s → exec s c = .ok s' → Reachable s'

/-- `Steps s u`: storage `u` arises from storage `s` by a (possibly
empty) sequence of successful external calls. -/
inductive Steps : PVState → PVState → Prop
  | refl (s : PVState) : Steps s s
  | tail (s t u : PVState) (c : PVCall) :
      Steps s t → exec t c = .ok u → Steps s u

/-- `VotingFactory.VotingContract` record (source lines 332–338). -/
structure VotingContract where
  contractAddress : Addr
  creator : Addr
  title : String
  createdAt : Nat
  isActive : Bool

/-- Storage of the `VotingFactory` contract, with its `Ownable` owner. -/
structure FactoryState where
  owner : Addr
  votingContracts : List VotingContract
  creatorToVotings : Addr → List Nat
  isValidVotingContract : Addr → Bool

/-- `VotingFactory.findVotingIndex` (source lines 551–558): linear scan
for the first record with the given contract address; the source reverts
with "Voting contract not found" when there is none, modelled by
`none`. -/
def findVotingIndex (l : List VotingContract) (a : Addr) : Option Nat :=
  l.findIdx? (fun vc => vc.contractAddress = a)

/-- `VotingFactory.createVoting` (source lines 373–416), run with
`msg.sender = sender` at `block.timestamp = nowT`; `factoryAddr` is the
factory's own address (the `msg.sender` seen by the `PrivateVoting`
constructor) and `newAddr` the address the EVM assigns to the new
instance.  After its own three checks it deploys a `PrivateVoting`
(whose constructor checks propagate as reverts), transfers ownership to
the caller and records the new contract. -/
def createVoting (fs : FactoryState) (factoryAddr gateway sender newAddr : Addr)
    (nowT : Nat) (title description : String) (options : List String)
    (startTime endTime : Nat) : Except String (FactoryState × PVState) :=
  if title = "" then .error "Title cannot be empty"
  else if options.length < 2 then .error "At least 2 options required"
  else if ¬ startTime < endTime then .error "Invalid time range"
  else
    match mkPrivateVoting factoryAddr gateway nowT title description options
        startTime endTime with
    | .error e => .error e
    | .ok pv0 =>
      match transferOwnership pv0 factoryAddr sender with
      | .error e => .error e
      | .ok pv1 =>
        .ok
          ({ fs with
             votingContracts := fs.votingContracts ++
               [{ contractAddress := newAddr
                  creator := sender
                  title := title
                  createdAt := nowT
                  isActive := true }]
             creatorToVotings := fun a =>
               if a = sender then
                 fs.creatorToVotings a ++ [fs.votingContracts.length]
               else fs.creatorToVotings a
             isValidVotingContract := fun a =>
               if a = newAddr then true else fs.isValidVotingContract a },
           pv1)

/-- `VotingFactory.deactivateVoting` (source lines 422–438). -/
def deactivateVoting (fs : FactoryState) (sender votingAddress : Addr) :
    Except String FactoryState :=
  if ¬ fs.isValidVotingContract votingAddress = true then
    .error "Invalid voting contract"
  else
    match findVotingIndex fs.votingContracts votingAddress with
    | none => .error "Voting contract not found"
    | some votingIndex =>
      if ¬ votingIndex < fs.votingContracts.length then .error "Voting not found"
      else
        let voting := fs.votingContracts.getD votingIndex
          { contractAddress := 0, creator := 0, title := "",
            createdAt := 0, isActive := false }
        if ¬ (voting.creator = sender ∨ fs.owner = sender) then
          .error "Not authorized to deactivate"
        else if ¬ voting.isActive = true then .error "Voting already deactivated"
        else .ok { fs with
          votingContracts := fs.votingContracts.set votingIndex
            { voting with isActive := false } }

/-- `VotingFactory.emergencyUpdateVotingStatus` (source lines 593–605). -/
def emergencyUpdateVotingStatus (fs : FactoryState)
    (sender votingAddress : Addr) (isActive : Bool) :
    Except String FactoryState :=
  if ¬ sender = fs.owner then .error "OwnableUnauthorizedAccount"
  else if ¬ fs.isValidVotingContract votingAddress = true then
    .error "Invalid voting contract"
  else
    match findVotingIndex fs.votingContracts votingAddress with
    | none => .error "Voting contract not found"
    | some votingIndex =>
      let voting := fs.votingContracts.getD votingIndex
        { contractAddress := 0, creator := 0, title := "",
          createdAt := 0, isActive := false }
      .ok { fs with
        votingContracts := fs.votingContracts.set votingIndex
          { voting with isActive := isActive } }

/-- OpenZeppelin `Ownable.transferOwnership` on the factory. -/
def factoryTransferOwnership (fs : FactoryState) (sender newOwner : Addr) :
    Except String FactoryState :=
  if ¬ sender = fs.owner then .error "OwnableUnauthorizedAccount"
  else if newOwner = 0 then .error "OwnableInvalidOwner"
  else .ok { fs with owner := newOwner }

/-- OpenZeppelin `Ownable.renounceOwnership` on the factory. -/
def factoryRenounceOwnership (fs : FactoryState) (sender : Addr) :
    Except String FactoryState :=
  if ¬ sender = fs.owner then .error "OwnableUnauthorizedAccount"
  else .ok { fs with owner := 0 }

/-- One external, storage-mutating call to the `VotingFactory`. -/
inductive FCall
  | createVoting (factoryAddr gateway sender newAddr : Addr) (nowT : Nat)
      (title description : String) (options : List String)
      (startTime endTime : Nat)
  | deactivateVoting (sender votingAddress : Addr)
  | emergencyUpdateVotingStatus (sender votingAddress : Addr) (isActive : Bool)
  | transferOwnership (sender newOwner : Addr)
  | renounceOwnership (sender : Addr)

/-- Dispatch a factory call; `createVoting` additionally returns the
storage of the freshly deployed `PrivateVoting`. -/
def factoryExec (fs : FactoryState) :
    FCall → Except String (FactoryState × Option PVState)
  | .createVoting factoryAddr gateway sender newAddr nowT title description
      options startTime endTime =>
    match createVoting fs factoryAddr gateway sender newAddr nowT title
        description options startTime endTime with
    | .error e => .error e
    | .ok (fs', pv) => .ok (fs', some pv)
  | .deactivateVoting sender votingAddress =>
    (deactivateVoting fs sender votingAddress).map (fun fs' => (fs', none))
  | .emergencyUpdateVotingStatus sender votingAddress isActive =>
    (emergencyUpdateVotingStatus fs sender votingAddress isActive).map
      (fun fs' => (fs', none))
  | .transferOwnership sender newOwner =>
    (factoryTransferOwnership fs sender newOwner).map (fun fs' => (fs', none))
  | .renounceOwnership sender =>
    (factoryRenounceOwnership fs sender).map (fun fs' => (fs', none))

/-- EVM transaction semantics of one factory call: revert keeps the
pre-state. -/
def factoryStep (fs : FactoryState) (c : FCall) : FactoryState × Option String :=
  match factoryExec fs c with
  | .ok (fs', _) => (fs', none)
  | .error e => (fs, some e)

/-- Fallback storage value, used only to destructure `Except` results on
concrete fixtures. -/
def pvDefault : PVState :=
  { owner := 0
    gatewayAddr := 0
    encryptedVoteCounts := fun _ => 0
    hasVoted := fun _ => false
    authorizedVoters := fun _ => false
    votingInfo :=
      { title := ""
        description := ""
        options := []
        startTime := 0
        endTime := 0
        state := .NotStarted
        totalVoters := 0
        resultsRequested := false }
    decryptedResults := fun _ => 0
    resultsDecrypted := false }

/-- Concrete fixture: a `PrivateVoting` deployed at time `20` by address
`1` with gateway `2`, options `["A", "B"]` and window `[10, 100]`; its
start time has passed, so it is `Active`. -/
def baseS : PVState :=
  (mkPrivateVoting 1 2 20 "Demo" "demo vote" ["A", "B"] 10 100).toOption.getD
    pvDefault

/-- Concrete fixture: `baseS` after address `1` cast a ballot with
plaintext `0` at time `50`. -/
def afterVote : PVState := (vote baseS 1 50 0).toOption.getD pvDefault

/-- Concrete fixture: the same deployment performed at time `0`, before
its start time, so it begins `NotStarted`. -/
def c4s0 : PVState :=
  (mkPrivateVoting 1 2 0 "Demo" "demo vote" ["A", "B"] 10 100).toOption.getD
    pvDefault

/-- Concrete fixture: `c4s0` after the gateway called `callbackResults`
although no decryption was ever requested; the state jumps to
`ResultsRevealed` while `resultsRequested` is still `false`. -/
def c4s1 : PVState := (exec c4s0 (.callbackResults 2 0 [])).toOption.getD pvDefault

/-- Concrete fixture: `c4s1` after the owner called `requestResults` at
time `200`, past the end time. -/
def c4s2 : PVState := (exec c4s1 (.requestResults 1 200)).toOption.getD pvDefault

/-- Concrete fixture: `c4s0` after the gateway delivered the single
decrypted value `7`. -/
def c9s : PVState := (callbackResults c4s0 2 0 [7]).toOption.getD pvDefault

/-- Concrete fixture: a freshly deployed factory owned by address `5`. -/
def factory0 : FactoryState :=
  { owner := 5
    votingContracts := []
    creatorToVotings := fun _ => []
    isValidVotingContract := fun _ => false }

/-- Concrete fixture: the result of address `7` calling
`createVoting` on `factory0` (factory address `9`, gateway `2`, new
instance at address `42`, at time `20`). -/
def createResult : FactoryState × PVState :=
  (createVoting factory0 9 2 7 42 20 "Demo" "demo vote" ["A", "B"] 10 100).toOption.getD
    (factory0, pvDefault)

/-- The factory storage after the `createResult` call. -/
def factory1 : FactoryState := createResult.1

/-- The storage of the `PrivateVoting` instance deployed by the
`createResult` call. -/
def pvCreated : PVState := createResult.2

/-- Concrete fixture: `baseS` after the owner ended the voting early. -/
def afterEnd : PVState := (exec baseS (.endVoting 1)).toOption.getD pvDefault

/-- Concrete fixture: a storage at the `euint32` wrap boundary: option
0's encrypted count holds the maximal 32-bit value `2 ^ 32 - 1`, the
state reached after that many distinct authorized voters chose option 0
(addresses are 160-bit, so enough voters exist).  Address `1` is an
authorized voter who has not voted yet. -/
def wrapS : PVState :=
  { owner := 1
    gatewayAddr := 2
    encryptedVoteCounts := fun i => if i = 0 then U32MOD - 1 else 0
    hasVoted := fun _ => false
    authorizedVoters := fun a => if a = 1 then true else false
    votingInfo :=
      { title := "Demo"
        description := "demo vote"
        options := ["A", "B"]
        startTime := 10
        endTime := 100
        state := .Active
        totalVoters := U32MOD - 1
        resultsRequested := false }
    decryptedResults := fun _ => 0
    resultsDecrypted := false }

/-- Concrete fixture: `wrapS` after address `1` cast a ballot with
plaintext `0` at time `50`. -/
def wrapS' : PVState := (vote wrapS 1 50 0).toOption.getD pvDefault

/-! ## Helper lemmas

Inversion and preservation lemmas about the embedded operations, shared
by the claim theorems below. -/

/-- Inverting a successful `PrivateVoting` construction: all four
`require`s held and the listed storage slots have their initial
values. -/
theorem mkPrivateVoting_ok_inv {sender gateway : Addr} {nowT : Nat}
    {title description : String} {options : List String}
    {startTime endTime : Nat} {s : PVState}
    (h : mkPrivateVoting sender gateway nowT title description options
      startTime endTime = .ok s) :
    2 ≤ options.length ∧ options.length ≤ 10 ∧ startTime < endTime ∧
    nowT < endTime ∧
    s.votingInfo.options = options ∧
    s.votingInfo.startTime = startTime ∧
    s.votingInfo.endTime = endTime ∧
    s.owner = sender ∧ s.gatewayAddr = gateway ∧
    s.authorizedVoters = (fun a => if a = sender then true else false) ∧
    s.encryptedVoteCounts = (fun _ => 0) ∧
    s.votingInfo.totalVoters = 0 ∧
    s.votingInfo.resultsRequested = false := by
  unfold mkPrivateVoting at h
  split_ifs at h with h1 h2 h3 h4 h5
  all_goals
    injection h with h6
    subst h6
    push_neg at h3 h4
    exact ⟨by omega, by omega, h3, h4, rfl, rfl, rfl, rfl, rfl, rfl, rfl, rfl, rfl⟩

/-- Inverting a successful `transferOwnership`: the caller was the owner,
the new owner is nonzero, and only the owner slot changed. -/
theorem transferOwnership_ok_inv {s : PVState} {sender newOwner : Addr}
    {s' : PVState} (h : transferOwnership s sender newOwner = .ok s') :
    sender = s.owner ∧ newOwner ≠ 0 ∧ s' = { s with owner := newOwner } := by
  unfold transferOwnership at h
  split_ifs at h with h1 h2
  injection h with h3
  push_neg at h1
  exact ⟨h1, h2, h3.symm⟩

/-- Inverting a successful `createVoting`: the factory's own checks
held, and the returned instance is a successfully constructed
`PrivateVoting` whose ownership was then transferred to the caller. -/
theorem createVoting_ok_inv {fs : FactoryState}
    {factoryAddr gateway sender newAddr : Addr} {nowT : Nat}
    {title description : String} {options : List String}
    {startTime endTime : Nat} {fs' : FactoryState} {pv : PVState}
    (h : createVoting fs factoryAddr gateway sender newAddr nowT title
      description options startTime endTime = .ok (fs', pv)) :
    title ≠ "" ∧ 2 ≤ options.length ∧ startTime < endTime ∧
    ∃ pv0, mkPrivateVoting factoryAddr gateway nowT title description
        options startTime endTime = .ok pv0 ∧
      transferOwnership pv0 factoryAddr sender = .ok pv := by
  unfold createVoting at h
  split_ifs at h with h1 h2 h3
  push_neg at h2 h3
  split at h
  · exact Except.noConfusion h
  next pv0 hmk =>
    split at h
    · exact Except.noConfusion h
    next pv1 htr =>
      injection h with h4
      obtain ⟨h5, h6⟩ := Prod.mk.inj h4
      subst h6
      exact ⟨h1, by omega, h3, pv0, hmk, htr⟩

/-- Inverting a successful `vote`: all guards held and the new storage
is the pre-state with the tally loop applied, the sender marked, and the
voter counter incremented. -/
theorem vote_ok_inv {s : PVState} {a : Addr} {t v : Nat} {s' : PVState}
    (h : vote s a t v = .ok s') :
    (s.votingInfo.startTime ≤ t ∧ t ≤ s.votingInfo.endTime ∧
     s.votingInfo.state = .Active ∧ s.authorizedVoters a = true ∧
     s.hasVoted a = false ∧
     v % U32MOD ≤ (s.votingInfo.options.length - 1) % U32MOD ∧
     s.votingInfo.totalVoters + 1 < U256MOD) ∧
    s' = { s with
      encryptedVoteCounts := fun i =>
        if i < s.votingInfo.options.length then
          (s.encryptedVoteCounts i +
            (if v % U32MOD = i % U32MOD then 1 else 0)) % U32MOD
        else s.encryptedVoteCounts i
      hasVoted := fun x => if x = a then true else s.hasVoted x
      votingInfo := { s.votingInfo with
        totalVoters := s.votingInfo.totalVoters + 1 } } := by
  unfold vote at h
  split_ifs at h with h1 h2 h3 h4 h5 h6
  injection h with h7
  push_neg at h1 h2 h3 h5 h6
  exact ⟨⟨h1.1, h1.2, h2, h3, by simpa using h4, h5, h6⟩, h7.symm⟩

/-- `vote` succeeds exactly when every guard of the source function
holds. -/
theorem vote_isOk_iff (s : PVState) (a : Addr) (t v : Nat) :
    (vote s a t v).isOk = true ↔
    (s.votingInfo.startTime ≤ t ∧ t ≤ s.votingInfo.endTime ∧
     s.votingInfo.state = .Active ∧ s.authorizedVoters a = true ∧
     s.hasVoted a = false ∧
     v % U32MOD ≤ (s.votingInfo.options.length - 1) % U32MOD ∧
     s.votingInfo.totalVoters + 1 < U256MOD) := by
  constructor
  · intro hok
    cases hv : vote s a t v with
    | error e =>
      rw [hv] at hok
      exact absurd hok (by simp [Except.isOk, Except.toBool])
    | ok s' => exact (vote_ok_inv hv).1
  · rintro ⟨hc1, hc2, hc3, hc4, hc5, hc6, hc7⟩
    simp [vote, hc1, hc2, hc3, hc4, hc5, hc6, hc7, Except.isOk, Except.toBool]

/-- When the modifiers ahead of `hasNotVoted` pass and the caller
already voted, `vote` reverts with exactly "Already voted". -/
theorem vote_already_voted {u : PVState} {a : Addr} {t2 v2 : Nat}
    (h1 : u.votingInfo.startTime ≤ t2) (h2 : t2 ≤ u.votingInfo.endTime)
    (h3 : u.votingInfo.state = .Active) (h4 : u.authorizedVoters a = true)
    (h5 : u.hasVoted a = true) :
    vote u a t2 v2 = .error "Already voted" := by
  simp [vote, h1, h2, h3, h4, h5]

/-- The `authorizeVoters` loop touches only the `authorizedVoters`
mapping. -/
theorem authorizeVotersGo_inv (l : List Addr) :
    ∀ s s' : PVState, authorizeVotersGo s l = .ok s' →
      s'.votingInfo = s.votingInfo ∧ s'.hasVoted = s.hasVoted ∧
      s'.encryptedVoteCounts = s.encryptedVoteCounts ∧
      s'.owner = s.owner ∧ s'.gatewayAddr = s.gatewayAddr ∧
      s'.decryptedResults = s.decryptedResults ∧
      s'.resultsDecrypted = s.resultsDecrypted := by
  induction l with
  | nil =>
    intro s s' h
    injection h with h1
    subst h1
    exact ⟨rfl, rfl, rfl, rfl, rfl, rfl, rfl⟩
  | cons x rest ih =>
    intro s s' h
    unfold authorizeVotersGo at h
    split_ifs at h with h1
    obtain ⟨g1, g2, g3, g4, g5, g6, g7⟩ := ih _ _ h
    exact ⟨g1, g2, g3, g4, g5, g6, g7⟩

/-- No successful operation ever resets a `hasVoted` flag: `true` is
preserved by every external call. -/
theorem exec_hasVoted_mono (s : PVState) (c : PVCall) (s' : PVState) (a : Addr)
    (h : exec s c = .ok s') (ha : s.hasVoted a = true) : s'.hasVoted a = true := by
  cases c <;> simp only [exec] at h
  case vote sender nowT v =>
    obtain ⟨-, rfl⟩ := vote_ok_inv h
    by_cases hx : a = sender <;> simp [hx, ha]
  case authorizeVoter sender voterAddr =>
    unfold authorizeVoter at h
    split_ifs at h
    injection h with h1
    subst h1
    exact ha
  case authorizeVoters sender voters =>
    unfold authorizeVoters at h
    split_ifs at h
    rw [(authorizeVotersGo_inv _ _ _ h).2.1]
    exact ha
  case revokeVoter sender voterAddr =>
    unfold revokeVoter at h
    split_ifs at h
    injection h with h1
    subst h1
    exact ha
  case endVoting sender =>
    unfold endVoting at h
    split_ifs at h
    injection h with h1
    subst h1
    exact ha
  case startVoting sender nowT =>
    unfold startVoting at h
    split_ifs at h
    injection h with h1
    subst h1
    exact ha
  case requestResults sender nowT =>
    unfold requestResults at h
    split_ifs at h
    injection h with h1
    subst h1
    exact ha
  case callbackResults sender requestId input =>
    unfold callbackResults at h
    split_ifs at h
    injection h with h1
    subst h1
    exact ha
  case transferOwnership sender newOwner =>
    obtain ⟨-, -, rfl⟩ := transferOwnership_ok_inv h
    exact ha
  case renounceOwnership sender =>
    unfold renounceOwnership at h
    split_ifs at h
    injection h with h1
    subst h1
    exact ha

/-- Every successful call either keeps the state rank non-decreasing or
is a `requestResults` issued while the stored state is already
`ResultsRevealed` (the one backward transition of the contract). -/
theorem exec_state_mono (s : PVState) (c : PVCall) (s' : PVState)
    (h : exec s c = .ok s') :
    (s.votingInfo.state = .ResultsRevealed ∧
      ∃ sender nowT, c = PVCall.requestResults sender nowT) ∨
    s.votingInfo.state.rank ≤ s'.votingInfo.state.rank := by
  cases c <;> simp only [exec] at h
  case vote sender nowT v =>
    obtain ⟨-, rfl⟩ := vote_ok_inv h
    exact Or.inr (Nat.le_refl _)
  case authorizeVoter sender voterAddr =>
    unfold authorizeVoter at h
    split_ifs at h
    injection h with h1
    subst h1
    exact Or.inr (Nat.le_refl _)
  case authorizeVoters sender voters =>
    unfold authorizeVoters at h
    split_ifs at h
    rw [(authorizeVotersGo_inv _ _ _ h).1]
    exact Or.inr (Nat.le_refl _)
  case revokeVoter sender voterAddr =>
    unfold revokeVoter at h
    split_ifs at h
    injection h with h1
    subst h1
    exact Or.inr (Nat.le_refl _)
  case endVoting sender =>
    unfold endVoting at h
    split_ifs at h with h1 h2
    injection h with h1
    subst h1
    push_neg at h2
    rw [h2]
    exact Or.inr (by simp [VotingState.rank])
  case startVoting sender nowT =>
    unfold startVoting at h
    split_ifs at h with h1 h2 h3
    injection h with h1
    subst h1
    push_neg at h2
    rw [h2]
    exact Or.inr (by simp [VotingState.rank])
  case requestResults sender nowT =>
    unfold requestResults at h
    split_ifs at h with h1 h2 h3
    injection h with h1
    subst h1
    by_cases hrr : s.votingInfo.state = .ResultsRevealed
    · exact Or.inl ⟨hrr, sender, nowT, rfl⟩
    · refine Or.inr ?_
      cases hst : s.votingInfo.state <;> simp [VotingState.rank]
      exact absurd hst hrr
  case callbackResults sender requestId input =>
    unfold callbackResults at h
    split_ifs at h
    injection h with h1
    subst h1
    refine Or.inr ?_
    cases hst : s.votingInfo.state <;> simp [VotingState.rank]
  case transferOwnership sender newOwner =>
    obtain ⟨-, -, rfl⟩ := transferOwnership_ok_inv h
    exact Or.inr (Nat.le_refl _)
  case renounceOwnership sender =>
    unfold renounceOwnership at h
    split_ifs at h
    injection h with h1
    subst h1
    exact Or.inr (Nat.le_refl _)

/-! ## Claim theorems -/

/-- C1 counterexample: on the wrap-boundary storage `wrapS`, whose
encrypted count for option 0 holds the maximal `euint32` value
`2 ^ 32 - 1`, the next vote for option 0 succeeds but `TFHE.add` wraps
the count to 0 instead of incrementing it by exactly 1, refuting the
claim as stated for every successful vote. -/
theorem vote_count_wraps_at_u32max_counterexample :
    wrapS.encryptedVoteCounts 0 = U32MOD - 1 ∧
    vote wrapS 1 50 0 = .ok wrapS' ∧
    wrapS'.encryptedVoteCounts 0 = 0 ∧
    wrapS'.encryptedVoteCounts 0 ≠ wrapS.encryptedVoteCounts 0 + 1 :=
  ⟨rfl, rfl, rfl, by decide⟩

/-- C1 (amended): every successful `PrivateVoting.vote` with ballot
plaintext `v` (`0 ≤ v ≤ options.length - 1`) increments the encrypted
count of option `v` by exactly 1 modulo `2 ^ 32` — `TFHE.add` wraps, so
a count standing at `2 ^ 32 - 1` becomes 0 — leaves the encrypted
counts of all other options unchanged, and increments
`votingInfo.totalVoters` by exactly 1.  Stated for storages whose counts
are genuine `euint32` plaintexts (below `2 ^ 32`) with at most 10
options, as the constructor guarantees. -/
theorem vote_tallies_one_option_mod_u32
    (s : PVState) (a : Addr) (t v : Nat) (s' : PVState)
    (hlen : s.votingInfo.options.length ≤ 10)
    (hwf : ∀ j, s.encryptedVoteCounts j < U32MOD)
    (hv : v < s.votingInfo.options.length)
    (h : vote s a t v = .ok s') :
    s'.encryptedVoteCounts v = (s.encryptedVoteCounts v + 1) % U32MOD ∧
    (∀ j, j ≠ v → s'.encryptedVoteCounts j = s.encryptedVoteCounts j) ∧
    s'.votingInfo.totalVoters = s.votingInfo.totalVoters + 1 := by
  have hM : (10 : Nat) < U32MOD := by norm_num [U32MOD]
  obtain ⟨-, rfl⟩ := vote_ok_inv h
  refine ⟨?_, ?_, rfl⟩
  · show (if v < s.votingInfo.options.length then
        (s.encryptedVoteCounts v +
          (if v % U32MOD = v % U32MOD then 1 else 0)) % U32MOD
      else s.encryptedVoteCounts v) = (s.encryptedVoteCounts v + 1) % U32MOD
    rw [if_pos hv, if_pos rfl]
  · intro j hj
    show (if j < s.votingInfo.options.length then
        (s.encryptedVoteCounts j +
          (if v % U32MOD = j % U32MOD then 1 else 0)) % U32MOD
      else s.encryptedVoteCounts j) = s.encryptedVoteCounts j
    by_cases hjlen : j < s.votingInfo.options.length
    · have hvM : v % U32MOD = v := Nat.mod_eq_of_lt (by omega)
      have hjM : j % U32MOD = j := Nat.mod_eq_of_lt (by omega)
      rw [if_pos hjlen, if_neg (by rw [hvM, hjM]; exact fun hh => hj hh.symm)]
      rw [Nat.add_zero]
      exact Nat.mod_eq_of_lt (hwf j)
    · rw [if_neg hjlen]

/-- Concrete instantiation of `vote_tallies_one_option_mod_u32` on the
`baseS` fixture. -/
theorem vote_tallies_one_option_mod_u32_witness :
    afterVote.encryptedVoteCounts 0 = (baseS.encryptedVoteCounts 0 + 1) % U32MOD ∧
    afterVote.encryptedVoteCounts 1 = baseS.encryptedVoteCounts 1 ∧
    afterVote.votingInfo.totalVoters = baseS.votingInfo.totalVoters + 1 :=
  have h := vote_tallies_one_option_mod_u32 baseS 1 50 0 afterVote
    (by decide) (fun j => (by norm_num [U32MOD] : (0 : Nat) < U32MOD))
    (by decide) rfl
  ⟨h.1, h.2.1 1 (by decide), h.2.2⟩

/-- C3: `PrivateVoting.requestResults` succeeds at most once and only
after voting has ended: it reverts when `resultsRequested` is already
set, and when `block.timestamp ≤ endTime` while the state is not
`Ended`; on success it sets `resultsRequested` and the state `Ended`,
after which every further `requestResults` reverts. -/
theorem requestResults_once_and_after_end (s : PVState) (a : Addr) (t : Nat) :
    (s.votingInfo.resultsRequested = true → (requestResults s a t).isOk = false) ∧
    (t ≤ s.votingInfo.endTime → ¬ s.votingInfo.state = .Ended →
      (requestResults s a t).isOk = false) ∧
    (∀ s', requestResults s a t = .ok s' →
      s'.votingInfo.resultsRequested = true ∧ s'.votingInfo.state = .Ended ∧
      ∀ a2 t2, (requestResults s' a2 t2).isOk = false) := by
  refine ⟨?_, ?_, ?_⟩
  · intro hrr
    unfold requestResults
    split_ifs <;> simp_all [Except.isOk, Except.toBool]
  · intro ht hst
    unfold requestResults
    split_ifs <;> simp_all [Except.isOk, Except.toBool]
    omega
  · intro s' h
    unfold requestResults at h
    split_ifs at h with h1 h2 h3
    injection h with h4
    subst h4
    refine ⟨rfl, rfl, ?_⟩
    intro a2 t2
    unfold requestResults
    split_ifs with g1 g2 g3 <;> simp [Except.isOk, Except.toBool]
    simp at g3

/-- Concrete instantiation of `requestResults_once_and_after_end`: a
second request on `c4s2` reverts, and a request during the active window
of `baseS` reverts. -/
theorem requestResults_once_and_after_end_witness :
    (requestResults c4s2 1 300).isOk = false ∧
    (requestResults baseS 1 50).isOk = false :=
  ⟨(requestResults_once_and_after_end c4s2 1 300).1 (by decide),
   (requestResults_once_and_after_end baseS 1 50).2.1 (by decide) (by decide)⟩

/-- C7: `PrivateVoting.vote` reverts whenever the caller is not an
authorized voter, the call is outside the `[startTime, endTime]` window,
or the state is not `Active`; and it succeeds only when all those checks
pass together with the not-yet-voted and valid-option checks. -/
theorem vote_requires_auth_time_state (s : PVState) (a : Addr) (t v : Nat) :
    ((¬ s.authorizedVoters a = true ∨ t < s.votingInfo.startTime ∨
      s.votingInfo.endTime < t ∨ ¬ s.votingInfo.state = .Active) →
      (vote s a t v).isOk = false) ∧
    ((vote s a t v).isOk = true →
      s.votingInfo.startTime ≤ t ∧ t ≤ s.votingInfo.endTime ∧
      s.votingInfo.state = .Active ∧ s.authorizedVoters a = true ∧
      s.hasVoted a = false ∧
      v % U32MOD ≤ (s.votingInfo.options.length - 1) % U32MOD) := by
  constructor
  · intro hbad
    cases hok : (vote s a t v).isOk
    · rfl
    · obtain ⟨c1, c2, c3, c4, -, -, -⟩ := (vote_isOk_iff s a t v).1 hok
      rcases hbad with hb | hb | hb | hb
      · exact absurd c4 hb
      · omega
      · omega
      · exact absurd c3 hb
  · intro hok
    obtain ⟨c1, c2, c3, c4, c5, c6, -⟩ := (vote_isOk_iff s a t v).1 hok
    exact ⟨c1, c2, c3, c4, c5, c6⟩

/-- Concrete instantiation of `vote_requires_auth_time_state`: an
unauthorized caller's vote on `baseS` reverts, and the success direction
evaluated on the owner's vote. -/
theorem vote_requires_auth_time_state_witness :
    (vote baseS 3 50 0).isOk = false ∧ baseS.hasVoted 1 = false :=
  ⟨(vote_requires_auth_time_state baseS 3 50 0).1 (Or.inl (by decide)),
   ((vote_requires_auth_time_state baseS 1 50 0).2 (by decide)).2.2.2.2.1⟩

/-- C2 counterexample: after address 1 voted successfully on `baseS`,
its next `vote` call placed after the end of the window reverts with
"Voting is not active" — not with "Already voted" as the claim states
for every subsequent call — because the `onlyDuringVoting` modifier runs
before `hasNotVoted`. -/
theorem vote_second_revert_message_counterexample :
    vote baseS 1 50 0 = .ok afterVote ∧
    afterVote.hasVoted 1 = true ∧
    vote afterVote 1 200 0 = .error "Voting is not active" ∧
    "Voting is not active" ≠ "Already voted" :=
  ⟨rfl, rfl, rfl, by decide⟩

/-- C2 (amended): a successful `vote` by `a` sets `hasVoted[a]`, the
flag stays `true` across every later sequence of successful calls (no
operation resets it), every subsequent `vote` call from `a` reverts, and
it reverts with exactly "Already voted" whenever the timing, state and
authorization modifiers that run ahead of the `hasNotVoted` check
pass. -/
theorem vote_at_most_once
    (s : PVState) (a : Addr) (t v : Nat) (s' : PVState)
    (h : vote s a t v = .ok s') :
    s'.hasVoted a = true ∧
    (∀ u, Steps s' u → u.hasVoted a = true) ∧
    (∀ u t2 v2, Steps s' u → (vote u a t2 v2).isOk = false) ∧
    (∀ u t2 v2, Steps s' u →
      u.votingInfo.startTime ≤ t2 → t2 ≤ u.votingInfo.endTime →
      u.votingInfo.state = .Active → u.authorizedVoters a = true →
      vote u a t2 v2 = .error "Already voted") := by
  have hset : s'.hasVoted a = true := by
    obtain ⟨-, rfl⟩ := vote_ok_inv h
    show (if a = a then true else s.hasVoted a) = true
    rw [if_pos rfl]
  have hsteps : ∀ u, Steps s' u → u.hasVoted a = true := by
    intro u hu
    induction hu with
    | refl => exact hset
    | tail t0 u0 c hst hex ih => exact exec_hasVoted_mono t0 c u0 a hex ih
  refine ⟨hset, hsteps, ?_, ?_⟩
  · intro u t2 v2 hu
    cases hok : (vote u a t2 v2).isOk
    · rfl
    · obtain ⟨-, -, -, -, hnv, -, -⟩ := (vote_isOk_iff u a t2 v2).1 hok
      rw [hsteps u hu] at hnv
      exact absurd hnv (by simp)
  · intro u t2 v2 hu h1 h2 h3 h4
    exact vote_already_voted h1 h2 h3 h4 (hsteps u hu)

/-- Concrete instantiation of `vote_at_most_once` on `baseS`: the flag
is set and an immediate second vote reverts with "Already voted". -/
theorem vote_at_most_once_witness :
    afterVote.hasVoted 1 = true ∧
    vote afterVote 1 60 0 = .error "Already voted" :=
  have h := vote_at_most_once baseS 1 50 0 afterVote rfl
  ⟨h.1, h.2.2.2 afterVote 60 0 (Steps.refl afterVote) (by decide) (by decide)
    (by decide) (by decide)⟩

/-- C4 counterexample: from the reachable storage `c4s1` — whose state
is `ResultsRevealed` because the gateway delivered a callback although
no decryption was ever requested — the owner's `requestResults` at time
200 succeeds and moves the state back to `Ended`, an earlier enum value,
refuting forward-only movement for every reachable state and
operation. -/
theorem state_can_move_backward_counterexample :
    Reachable c4s1 ∧
    c4s1.votingInfo.state = .ResultsRevealed ∧
    exec c4s1 (.requestResults 1 200) = .ok c4s2 ∧
    c4s2.votingInfo.state = .Ended ∧
    c4s2.votingInfo.state.rank < c4s1.votingInfo.state.rank :=
  ⟨Reachable.next c4s0 (.callbackResults 2 0 []) c4s1
      (Reachable.init 1 2 0 "Demo" "demo vote" ["A", "B"] 10 100 c4s0 rfl) rfl,
   rfl, rfl, rfl, by decide⟩

/-- C4 (amended): under every successful operation the stored state
never moves to an earlier enum value, except that `requestResults`
issued while the state is already `ResultsRevealed` (possible only after
a gateway callback that was never requested) resets it to `Ended`. -/
theorem state_monotone_except_unrequested_reveal
    (s : PVState) (c : PVCall) (s' : PVState) (h : exec s c = .ok s') :
    (s.votingInfo.state = .ResultsRevealed ∧
      ∃ sender nowT, c = PVCall.requestResults sender nowT) ∨
    s.votingInfo.state.rank ≤ s'.votingInfo.state.rank :=
  exec_state_mono s c s' h

/-- Concrete instantiation of
`state_monotone_except_unrequested_reveal` on the owner's `endVoting`
call on `baseS`. -/
theorem state_monotone_except_unrequested_reveal_witness :
    baseS.votingInfo.state.rank ≤ afterEnd.votingInfo.state.rank :=
  (state_monotone_except_unrequested_reveal baseS (.endVoting 1) afterEnd
    rfl).resolve_left (fun hl => absurd hl.1 (by decide))

/-- C5: the option count is always in `[2, 10]`: the `PrivateVoting`
constructor reverts whenever `options.length < 2` or
`options.length > 10`, and `VotingFactory.createVoting` never produces a
voting contract whose option count is outside `[2, 10]` (its own check
only enforces the lower bound, but the constructor's checks propagate as
reverts of the whole call). -/
theorem option_count_in_range :
    (∀ (sender gateway : Addr) (nowT : Nat) (title description : String)
      (options : List String) (startTime endTime : Nat),
      options.length < 2 ∨ options.length > 10 →
      (mkPrivateVoting sender gateway nowT title description options
        startTime endTime).isOk = false) ∧
    (∀ (fs : FactoryState) (factoryAddr gateway sender newAddr : Addr)
      (nowT : Nat) (title description : String) (options : List String)
      (startTime endTime : Nat) (fs' : FactoryState) (pv : PVState),
      createVoting fs factoryAddr gateway sender newAddr nowT title
        description options startTime endTime = .ok (fs', pv) →
      2 ≤ pv.votingInfo.options.length ∧
      pv.votingInfo.options.length ≤ 10) := by
  constructor
  · intro sender gateway nowT title description options startTime endTime hbad
    unfold mkPrivateVoting
    split_ifs <;> simp_all [Except.isOk, Except.toBool]
  · intro fs factoryAddr gateway sender newAddr nowT title description
      options startTime endTime fs' pv h
    obtain ⟨-, -, -, pv0, hmk, htr⟩ := createVoting_ok_inv h
    obtain ⟨g1, g2, -, -, gopts, -, -, -, -, -, -, -, -⟩ := mkPrivateVoting_ok_inv hmk
    obtain ⟨-, -, rfl⟩ := transferOwnership_ok_inv htr
    constructor
    · show 2 ≤ pv0.votingInfo.options.length
      rw [gopts]
      exact g1
    · show pv0.votingInfo.options.length ≤ 10
      rw [gopts]
      exact g2

/-- Concrete instantiation of `option_count_in_range`: a one-option
deployment reverts, and the factory-created `pvCreated` is in range. -/
theorem option_count_in_range_witness :
    (mkPrivateVoting 1 2 0 "T" "D" ["A"] 10 100).isOk = false ∧
    2 ≤ pvCreated.votingInfo.options.length ∧
    pvCreated.votingInfo.options.length ≤ 10 :=
  ⟨option_count_in_range.1 1 2 0 "T" "D" ["A"] 10 100 (Or.inl (by decide)),
   option_count_in_range.2 factory0 9 2 7 42 20 "Demo" "demo vote"
     ["A", "B"] 10 100 factory1 pvCreated rfl⟩

/-- C6: start precedes end: construction (direct or through
`VotingFactory.createVoting`) reverts when `startTime ≥ endTime`, and
every successfully constructed instance has
`votingInfo.startTime < votingInfo.endTime`. -/
theorem start_precedes_end :
    (∀ (sender gateway : Addr) (nowT : Nat) (title description : String)
      (options : List String) (startTime endTime : Nat),
      endTime ≤ startTime →
      (mkPrivateVoting sender gateway nowT title description options
        startTime endTime).isOk = false) ∧
    (∀ (sender gateway : Addr) (nowT : Nat) (title description : String)
      (options : List String) (startTime endTime : Nat) (s : PVState),
      mkPrivateVoting sender gateway nowT title description options
        startTime endTime = .ok s →
      s.votingInfo.startTime < s.votingInfo.endTime) ∧
    (∀ (fs : FactoryState) (factoryAddr gateway sender newAddr : Addr)
      (nowT : Nat) (title description : String) (options : List String)
      (startTime endTime : Nat) (fs' : FactoryState) (pv : PVState),
      createVoting fs factoryAddr gateway sender newAddr nowT title
        description options startTime endTime = .ok (fs', pv) →
      pv.votingInfo.startTime < pv.votingInfo.endTime) := by
  refine ⟨?_, ?_, ?_⟩
  · intro sender gateway nowT title description options startTime endTime hbad
    unfold mkPrivateVoting
    split_ifs <;> simp_all [Except.isOk, Except.toBool] <;> omega
  · intro sender gateway nowT title description options startTime endTime s h
    obtain ⟨-, -, hlt, -, -, hst, hen, -, -, -, -, -, -⟩ := mkPrivateVoting_ok_inv h
    rw [hst, hen]
    exact hlt
  · intro fs factoryAddr gateway sender newAddr nowT title description
      options startTime endTime fs' pv h
    obtain ⟨-, -, -, pv0, hmk, htr⟩ := createVoting_ok_inv h
    obtain ⟨-, -, hlt, -, -, hst, hen, -, -, -, -, -, -⟩ := mkPrivateVoting_ok_inv hmk
    obtain ⟨-, -, rfl⟩ := transferOwnership_ok_inv htr
    show pv0.votingInfo.startTime < pv0.votingInfo.endTime
    rw [hst, hen]
    exact hlt

/-- Concrete instantiation of `start_precedes_end`: an empty window
reverts, and the fixtures `baseS` and `pvCreated` satisfy the
invariant. -/
theorem start_precedes_end_witness :
    (mkPrivateVoting 1 2 0 "T" "D" ["A", "B"] 100 100).isOk = false ∧
    baseS.votingInfo.startTime < baseS.votingInfo.endTime ∧
    pvCreated.votingInfo.startTime < pvCreated.votingInfo.endTime :=
  ⟨start_precedes_end.1 1 2 0 "T" "D" ["A", "B"] 100 100 (by decide),
   start_precedes_end.2.1 1 2 20 "Demo" "demo vote" ["A", "B"] 10 100 baseS rfl,
   start_precedes_end.2.2 factory0 9 2 7 42 20 "Demo" "demo vote"
     ["A", "B"] 10 100 factory1 pvCreated rfl⟩

/-- C8: calls are atomic: under the transaction semantics `step` /
`factoryStep` — which model the EVM's rollback of reverted calls — every
operation of `PrivateVoting` and of `VotingFactory` that reports a
revert leaves the contract storage exactly as it was before the
call. -/
theorem revert_leaves_state_unchanged :
    (∀ (s : PVState) (c : PVCall),
      ((step s c).2).isSome = true → (step s c).1 = s) ∧
    (∀ (fs : FactoryState) (c : FCall),
      ((factoryStep fs c).2).isSome = true → (factoryStep fs c).1 = fs) := by
  constructor
  · intro s c hsome
    cases hex : exec s c with
    | error e => simp [step, hex]
    | ok s' => simp [step, hex] at hsome
  · intro fs c hsome
    cases hex : factoryExec fs c with
    | error e => simp [factoryStep, hex]
    | ok p => simp [factoryStep, hex] at hsome

/-- Concrete instantiation of `revert_leaves_state_unchanged`: an
unauthorized vote and a deactivation of an unknown contract both revert
and leave the respective storages untouched. -/
theorem revert_leaves_state_unchanged_witness :
    (step baseS (.vote 3 50 0)).1 = baseS ∧
    (factoryStep factory0 (.deactivateVoting 7 99)).1 = factory0 :=
  ⟨revert_leaves_state_unchanged.1 baseS (.vote 3 50 0) (by decide),
   revert_leaves_state_unchanged.2 factory0 (.deactivateVoting 7 99) (by decide)⟩

/-- C9: `callbackResults`, when called by the gateway, succeeds from any
state — it requires neither a prior `requestResults` nor an ended
voting — unconditionally sets `resultsDecrypted` and state
`ResultsRevealed`, copies exactly the decrypted values with index below
`min(decryptedInput.length, options.length)` (cast to `uint32`), and
leaves every later stored result unchanged. -/
theorem callbackResults_unconditional (s : PVState) (sender : Addr)
    (requestId : Nat) (input : List Nat) :
    (sender = s.gatewayAddr →
      (callbackResults s sender requestId input).isOk = true) ∧
    (∀ s', callbackResults s sender requestId input = .ok s' →
      s'.resultsDecrypted = true ∧
      s'.votingInfo.state = .ResultsRevealed ∧
      s'.votingInfo.resultsRequested = s.votingInfo.resultsRequested ∧
      (∀ i, i < input.length → i < s.votingInfo.options.length →
        s'.decryptedResults i = input.getD i 0 % U32MOD) ∧
      (∀ i, input.length ≤ i ∨ s.votingInfo.options.length ≤ i →
        s'.decryptedResults i = s.decryptedResults i)) := by
  constructor
  · intro hgw
    simp [callbackResults, hgw, Except.isOk, Except.toBool]
  · intro s' h
    unfold callbackResults at h
    split_ifs at h with h1
    injection h with h2
    subst h2
    refine ⟨rfl, rfl, rfl, ?_, ?_⟩
    · intro i hi1 hi2
      show (if i < input.length ∧ i < s.votingInfo.options.length then
          input.getD i 0 % U32MOD
        else s.decryptedResults i) = input.getD i 0 % U32MOD
      rw [if_pos ⟨hi1, hi2⟩]
    · intro i hi
      show (if i < input.length ∧ i < s.votingInfo.options.length then
          input.getD i 0 % U32MOD
        else s.decryptedResults i) = s.decryptedResults i
      rw [if_neg (by omega)]

/-- Concrete instantiation of `callbackResults_unconditional` on `c4s0`,
a state that is `NotStarted` with no request pending: the callback still
succeeds, stores the first value, and leaves the second option's result
unchanged. -/
theorem callbackResults_unconditional_witness :
    (callbackResults c4s0 2 0 [7]).isOk = true ∧
    c4s0.votingInfo.state = .NotStarted ∧
    c4s0.votingInfo.resultsRequested = false ∧
    c9s.resultsDecrypted = true ∧
    c9s.votingInfo.state = .ResultsRevealed ∧
    c9s.decryptedResults 0 = 7 % U32MOD ∧
    c9s.decryptedResults 1 = c4s0.decryptedResults 1 :=
  have h := (callbackResults_unconditional c4s0 2 0 [7]).2 c9s rfl
  ⟨(callbackResults_unconditional c4s0 2 0 [7]).1 (by decide),
   by decide, by decide, h.1, h.2.1,
   h.2.2.2.1 0 (by decide) (by decide),
   h.2.2.2.2 1 (Or.inl (by decide))⟩

/-- C10: every successful `VotingFactory.createVoting` by caller `u`
yields a `PrivateVoting` owned by `u`, but whose only authorized voter
is the factory address (the constructor's `msg.sender`): every other
address, `u` included when distinct from the factory, is not
authorized until authorized explicitly. -/
theorem createVoting_owner_not_authorized
    (fs : FactoryState) (factoryAddr gateway sender newAddr : Addr)
    (nowT : Nat) (title description : String) (options : List String)
    (startTime endTime : Nat) (fs' : FactoryState) (pv : PVState)
    (h : createVoting fs factoryAddr gateway sender newAddr nowT title
      description options startTime endTime = .ok (fs', pv)) :
    pv.owner = sender ∧
    pv.authorizedVoters factoryAddr = true ∧
    (∀ a, a ≠ factoryAddr → pv.authorizedVoters a = false) := by
  obtain ⟨-, -, -, pv0, hmk, htr⟩ := createVoting_ok_inv h
  obtain ⟨-, -, -, -, -, -, -, hown0, -, hauth, -, -, -⟩ := mkPrivateVoting_ok_inv hmk
  obtain ⟨-, -, rfl⟩ := transferOwnership_ok_inv htr
  refine ⟨rfl, ?_, ?_⟩
  · show pv0.authorizedVoters factoryAddr = true
    rw [hauth]
    simp
  · intro a ha
    show pv0.authorizedVoters a = false
    rw [hauth]
    simp [ha]

/-- Concrete instantiation of `createVoting_owner_not_authorized` on the
`createResult` fixture: creator `7` owns the instance, the factory
address `9` is authorized, and `7` is not. -/
theorem createVoting_owner_not_authorized_witness :
    pvCreated.owner = 7 ∧ pvCreated.authorizedVoters 9 = true ∧
    pvCreated.authorizedVoters 7 = false :=
  have h := createVoting_owner_not_authorized factory0 9 2 7 42 20 "Demo"
    "demo vote" ["A", "B"] 10 100 factory1 pvCreated rfl
  ⟨h.1, h.2.1, h.2.2 7 (by decide)⟩

end DemoZama
